import Mathlib

/-!
Shallow embedding of the Rust HTTP relay in `src/main.rs`.

The server exposes a single handler, `handle_request`, which validates an
incoming request (method/path, content-type, body read, JSON parse) and
forwards the parsed JSON value to a fixed upstream endpoint, relaying the
upstream's JSON response pretty-printed.

All external fallible operations performed by library code
(`hyper::body::to_bytes`, `serde_json::from_slice`,
`serde_json::to_string_pretty`, and the outbound `reqwest` POST together
with `.json()` decoding of its response) are modelled as fields of a
`World` record: the handler's own control flow over those outcomes is
translated branch-for-branch from the source.
-/

namespace RustApiServer

/-- JSON value, mirroring `serde_json::Value`
(null / bool / number / string / array / object). Numbers are modelled as
integers; none of the handler's control flow inspects numeric contents. -/
inductive Json where
  | null : Json
  | bool (b : Bool) : Json
  | num (n : Int) : Json
  | str (s : String) : Json
  | arr (elems : List Json) : Json
  | obj (fields : List (String × Json)) : Json

/-- HTTP response as produced by the handler: a status code and a body
(the Rust code builds `hyper::Response` values with text bodies). -/
structure Response where
  status : Nat
  body : String
deriving DecidableEq, Repr

/-- Outcome of the outbound `client.post(..).json(data).send().await`
followed by `.json::<serde_json::Value>()` decoding:
either a transport-level failure carrying the error's display text, or an
HTTP response whose body decodes to `some` JSON value or fails to decode. -/
inductive SendOutcome where
  | transportErr (e : String) : SendOutcome
  | httpOk (decoded : Option Json) : SendOutcome

/-- Incoming request: method, URI path, the value of the `content-type`
header if present (`req.headers().get("content-type")`), and the outcome
of buffering the body (`hyper::body::to_bytes`): `some` bytes on success,
`none` on a transport error while reading. -/
structure Request where
  method : String
  path : String
  contentType : Option String
  bodyRead : Option (List Nat)

/-- Behaviour of the external library code for one request:
`parseJson` is `serde_json::from_slice` (`none` on a syntax error),
`toStringPretty` is `serde_json::to_string_pretty` (`none` on a
serialization error), and `send` is the outbound POST to the upstream. -/
structure World where
  parseJson : List Nat → Option Json
  toStringPretty : Json → Option String
  send : Json → SendOutcome

/-- Source: `is_json_content_type` (src/main.rs:9-11). True iff the
`content-type` header is present and byte-for-byte `application/json`. -/
def is_json_content_type (req : Request) : Bool :=
  req.contentType == some "application/json"

/-- Source: `read_body` (src/main.rs:14-22). Returns the buffered body
bytes, or a terminal `400` response when reading failed. -/
def read_body (req : Request) : Except Response (List Nat) :=
  match req.bodyRead with
  | some b => Except.ok b
  | none => Except.error ⟨400, "Failed to read body"⟩

/-- Source: `parse_json` (src/main.rs:25-33). Parses the body bytes as a
generic JSON value, or returns a terminal `400` response. -/
def parse_json (w : World) (body : List Nat) : Except Response Json :=
  match w.parseJson body with
  | some v => Except.ok v
  | none => Except.error ⟨400, "Invalid JSON format"⟩

/-- Source: `forward_to_external_api` (src/main.rs:36-62). Issues the
outbound POST; on success decodes the upstream body as JSON and returns a
`200` response whose body is the pretty-printed re-serialization (falling
back to a fixed text when re-serialization fails); on decode failure or
transport failure returns a terminal `502` response. -/
def forward_to_external_api (w : World) (data : Json) : Except Response Response :=
  match w.send data with
  | SendOutcome.httpOk (some json_resp) =>
      Except.ok ⟨200,
        match w.toStringPretty json_resp with
        | some s => s
        | none => "Failed to serialize response"⟩
  | SendOutcome.httpOk none =>
      Except.error ⟨502, "Failed to decode API response"⟩
  | SendOutcome.transportErr e =>
      Except.error ⟨502, "API request failed: " ++ e⟩

/-- Source: `handle_request` (src/main.rs:64-96). The full per-request
pipeline; in Rust it returns `Result<Response<Body>, Infallible>` and is
always `Ok`, so it is modelled as a total function into `Response`. -/
def handle_request (w : World) (req : Request) : Response :=
  if req.method == "POST" && req.path == "/hello" then
    if !is_json_content_type req then
      ⟨415, "Expected application/json"⟩
    else
      match read_body req with
      | Except.error resp => resp
      | Except.ok body =>
        match parse_json w body with
        | Except.error resp => resp
        | Except.ok data =>
          match forward_to_external_api w data with
          | Except.ok resp => resp
          | Except.error resp => resp
  else
    ⟨404, "Not Found"⟩

/-- Inbound Gate acceptance: the request passes the method/path check, the
content-type check, the body read and the JSON parse. `handle_request`
reaches `forward_to_external_api` exactly on such requests. -/
def gate_accepts (w : World) (req : Request) : Bool :=
  req.method == "POST" && req.path == "/hello" &&
  req.contentType == some "application/json" &&
  (match req.bodyRead with
   | some b => (w.parseJson b).isSome
   | none => false)

/-- Sequential processing of a batch of requests by the (stateless)
handler: each request is handled independently against the same world. -/
def run_requests (w : World) (reqs : List Request) : List Response :=
  reqs.map (handle_request w)

/- Helper lemmas characterising each branch of the pipeline. -/

lemma hr_not_found (w : World) (req : Request)
    (h : ¬ (req.method = "POST" ∧ req.path = "/hello")) :
    handle_request w req = ⟨404, "Not Found"⟩ := by
  have hb : (req.method == "POST" && req.path == "/hello") = false := by
    by_contra hc
    rw [Bool.not_eq_false, Bool.and_eq_true, beq_iff_eq, beq_iff_eq] at hc
    exact h hc
  simp [handle_request, hb]

lemma hr_unsupported_media (w : World) (req : Request)
    (hm : req.method = "POST") (hp : req.path = "/hello")
    (hct : req.contentType ≠ some "application/json") :
    handle_request w req = ⟨415, "Expected application/json"⟩ := by
  have hb : (req.contentType == some "application/json") = false :=
    beq_eq_false_iff_ne.mpr hct
  simp [handle_request, hm, hp, is_json_content_type, hb]

lemma hr_read_fail (w : World) (req : Request)
    (hm : req.method = "POST") (hp : req.path = "/hello")
    (hct : req.contentType = some "application/json")
    (hb : req.bodyRead = none) :
    handle_request w req = ⟨400, "Failed to read body"⟩ := by
  simp [handle_request, hm, hp, is_json_content_type, hct, read_body, hb]

lemma hr_parse_fail (w : World) (req : Request) (b : List Nat)
    (hm : req.method = "POST") (hp : req.path = "/hello")
    (hct : req.contentType = some "application/json")
    (hb : req.bodyRead = some b)
    (hparse : w.parseJson b = none) :
    handle_request w req = ⟨400, "Invalid JSON format"⟩ := by
  simp [handle_request, hm, hp, is_json_content_type, hct, read_body, hb,
        parse_json, hparse]

lemma hr_send_fail (w : World) (req : Request) (b : List Nat)
    (data : Json) (e : String)
    (hm : req.method = "POST") (hp : req.path = "/hello")
    (hct : req.contentType = some "application/json")
    (hb : req.bodyRead = some b)
    (hparse : w.parseJson b = some data)
    (hsend : w.send data = SendOutcome.transportErr e) :
    handle_request w req = ⟨502, "API request failed: " ++ e⟩ := by
  simp [handle_request, hm, hp, is_json_content_type, hct, read_body, hb,
        parse_json, hparse, forward_to_external_api, hsend]

lemma hr_decode_fail (w : World) (req : Request) (b : List Nat)
    (data : Json)
    (hm : req.method = "POST") (hp : req.path = "/hello")
    (hct : req.contentType = some "application/json")
    (hb : req.bodyRead = some b)
    (hparse : w.parseJson b = some data)
    (hsend : w.send data = SendOutcome.httpOk none) :
    handle_request w req = ⟨502, "Failed to decode API response"⟩ := by
  simp [handle_request, hm, hp, is_json_content_type, hct, read_body, hb,
        parse_json, hparse, forward_to_external_api, hsend]

lemma hr_success (w : World) (req : Request) (b : List Nat)
    (data json_resp : Json) (s : String)
    (hm : req.method = "POST") (hp : req.path = "/hello")
    (hct : req.contentType = some "application/json")
    (hb : req.bodyRead = some b)
    (hparse : w.parseJson b = some data)
    (hsend : w.send data = SendOutcome.httpOk (some json_resp))
    (hser : w.toStringPretty json_resp = some s) :
    handle_request w req = ⟨200, s⟩ := by
  simp [handle_request, hm, hp, is_json_content_type, hct, read_body, hb,
        parse_json, hparse, forward_to_external_api, hsend, hser]

lemma hr_serialize_fail (w : World) (req : Request) (b : List Nat)
    (data json_resp : Json)
    (hm : req.method = "POST") (hp : req.path = "/hello")
    (hct : req.contentType = some "application/json")
    (hb : req.bodyRead = some b)
    (hparse : w.parseJson b = some data)
    (hsend : w.send data = SendOutcome.httpOk (some json_resp))
    (hser : w.toStringPretty json_resp = none) :
    handle_request w req = ⟨200, "Failed to serialize response"⟩ := by
  simp [handle_request, hm, hp, is_json_content_type, hct, read_body, hb,
        parse_json, hparse, forward_to_external_api, hsend, hser]

lemma hr_total_cases (w : World) (req : Request) :
    handle_request w req = ⟨404, "Not Found"⟩ ∨
    handle_request w req = ⟨415, "Expected application/json"⟩ ∨
    handle_request w req = ⟨400, "Failed to read body"⟩ ∨
    handle_request w req = ⟨400, "Invalid JSON format"⟩ ∨
    (∃ b data, req.method = "POST" ∧ req.path = "/hello" ∧
      req.contentType = some "application/json" ∧ req.bodyRead = some b ∧
      w.parseJson b = some data ∧
      ((∃ e, w.send data = SendOutcome.transportErr e ∧
          handle_request w req = ⟨502, "API request failed: " ++ e⟩) ∨
       (w.send data = SendOutcome.httpOk none ∧
          handle_request w req = ⟨502, "Failed to decode API response"⟩))) ∨
    (handle_request w req).status = 200 := by
  by_cases hmp : req.method = "POST" ∧ req.path = "/hello"
  · obtain ⟨hm, hp⟩ := hmp
    by_cases hct : req.contentType = some "application/json"
    · cases hb : req.bodyRead with
      | none => exact Or.inr (Or.inr (Or.inl (hr_read_fail w req hm hp hct hb)))
      | some b =>
        cases hparse : w.parseJson b with
        | none =>
          exact Or.inr (Or.inr (Or.inr (Or.inl
            (hr_parse_fail w req b hm hp hct hb hparse))))
        | some data =>
          cases hsend : w.send data with
          | transportErr e =>
            exact Or.inr (Or.inr (Or.inr (Or.inr (Or.inl
              ⟨b, data, hm, hp, hct, rfl, hparse, Or.inl
                ⟨e, hsend, hr_send_fail w req b data e hm hp hct hb hparse hsend⟩⟩))))
          | httpOk dec =>
            cases dec with
            | none =>
              exact Or.inr (Or.inr (Or.inr (Or.inr (Or.inl
                ⟨b, data, hm, hp, hct, rfl, hparse, Or.inr
                  ⟨hsend, hr_decode_fail w req b data hm hp hct hb hparse hsend⟩⟩))))
            | some j =>
              cases hser : w.toStringPretty j with
              | some s =>
                refine Or.inr (Or.inr (Or.inr (Or.inr (Or.inr ?_))))
                rw [hr_success w req b data j s hm hp hct hb hparse hsend hser]
              | none =>
                refine Or.inr (Or.inr (Or.inr (Or.inr (Or.inr ?_))))
                rw [hr_serialize_fail w req b data j hm hp hct hb hparse hsend hser]
    · exact Or.inr (Or.inl (hr_unsupported_media w req hm hp hct))
  · exact Or.inl (hr_not_found w req hmp)

lemma hr_502_inv (w : World) (req : Request)
    (h : (handle_request w req).status = 502) :
    ∃ b data, req.method = "POST" ∧ req.path = "/hello" ∧
      req.contentType = some "application/json" ∧ req.bodyRead = some b ∧
      w.parseJson b = some data ∧
      ((w.send data = SendOutcome.httpOk none ∧
        (handle_request w req).body = "Failed to decode API response") ∨
       ∃ e, w.send data = SendOutcome.transportErr e ∧
        (handle_request w req).body = "API request failed: " ++ e) := by
  rcases hr_total_cases w req with
    hc | hc | hc | hc | ⟨b, data, hm, hp, hct, hb, hparse, hcase⟩ | hc
  · rw [hc] at h; simp at h
  · rw [hc] at h; simp at h
  · rw [hc] at h; simp at h
  · rw [hc] at h; simp at h
  · rcases hcase with ⟨e, hsend, heq⟩ | ⟨hsend, heq⟩
    · exact ⟨b, data, hm, hp, hct, hb, hparse, Or.inr ⟨e, hsend, by rw [heq]⟩⟩
    · exact ⟨b, data, hm, hp, hct, hb, hparse, Or.inl ⟨hsend, by rw [heq]⟩⟩
  · rw [hc] at h; simp at h

lemma hr_frame (w : World) (req : Request) (s' : Json → SendOutcome)
    (h : gate_accepts w req = false) :
    handle_request { w with send := s' } req = handle_request w req := by
  by_cases hmp : req.method = "POST" ∧ req.path = "/hello"
  · obtain ⟨hm, hp⟩ := hmp
    by_cases hct : req.contentType = some "application/json"
    · cases hb : req.bodyRead with
      | none =>
        rw [hr_read_fail { w with send := s' } req hm hp hct hb,
            hr_read_fail w req hm hp hct hb]
      | some b =>
        cases hparse : w.parseJson b with
        | none =>
          rw [hr_parse_fail { w with send := s' } req b hm hp hct hb hparse,
              hr_parse_fail w req b hm hp hct hb hparse]
        | some data =>
          exfalso
          simp [gate_accepts, hm, hp, hct, hb, hparse] at h
    · rw [hr_unsupported_media { w with send := s' } req hm hp hct,
          hr_unsupported_media w req hm hp hct]
  · rw [hr_not_found { w with send := s' } req hmp, hr_not_found w req hmp]

/- Concrete inputs used by the witness theorems. `demoBody` is the byte
sequence of the spec example payload, the UTF-8 bytes of the seven
characters of the example body. -/

def demoJson : Json := Json.obj [("a", Json.num 1)]

def demoBody : List Nat := [123, 34, 97, 34, 58, 49, 125]

def demoReq : Request :=
  { method := "POST", path := "/hello",
    contentType := some "application/json", bodyRead := some demoBody }

def demoWorld : World :=
  { parseJson := fun _ => some demoJson
    toStringPretty := fun _ => some "pretty"
    send := fun j => SendOutcome.httpOk (some j) }

def getReq : Request := { demoReq with method := "GET" }

def textCtReq : Request := { demoReq with contentType := some "text/plain" }

def unreadableReq : Request := { demoReq with bodyRead := none }

def badParseWorld : World := { demoWorld with parseJson := fun _ => none }

def sendErrWorld : World :=
  { demoWorld with send := fun _ => SendOutcome.transportErr "boom" }

def noDecodeWorld : World :=
  { demoWorld with send := fun _ => SendOutcome.httpOk none }

def noSerializeWorld : World := { demoWorld with toStringPretty := fun _ => none }

/-- C1: for every request with method POST, path "/hello", content-type
exactly "application/json", and a body that parses as JSON, if the
upstream POST succeeds and its response body decodes as a JSON value, the
handler returns status 200 and the response body is the pretty-printed
serialization of that upstream JSON value. -/
theorem success_relays_pretty_upstream_json
    (w : World) (req : Request) (b : List Nat) (data json_resp : Json)
    (s : String)
    (hm : req.method = "POST") (hp : req.path = "/hello")
    (hct : req.contentType = some "application/json")
    (hb : req.bodyRead = some b)
    (hparse : w.parseJson b = some data)
    (hsend : w.send data = SendOutcome.httpOk (some json_resp))
    (hser : w.toStringPretty json_resp = some s) :
    handle_request w req = ⟨200, s⟩ :=
  hr_success w req b data json_resp s hm hp hct hb hparse hsend hser

/-- Witness for C1 at a concrete request and echoing upstream. -/
theorem success_relays_pretty_upstream_json_witness :
    handle_request demoWorld demoReq = ⟨200, "pretty"⟩ :=
  success_relays_pretty_upstream_json demoWorld demoReq demoBody demoJson
    demoJson "pretty" rfl rfl rfl rfl rfl rfl rfl

/-- C2: on the success path, if pretty-printed re-serialization of the
already-decoded upstream JSON value fails, the handler returns the literal
text "Failed to serialize response" as the body while still returning
status 200 OK. -/
theorem serialize_failure_still_200
    (w : World) (req : Request) (b : List Nat) (data json_resp : Json)
    (hm : req.method = "POST") (hp : req.path = "/hello")
    (hct : req.contentType = some "application/json")
    (hb : req.bodyRead = some b)
    (hparse : w.parseJson b = some data)
    (hsend : w.send data = SendOutcome.httpOk (some json_resp))
    (hser : w.toStringPretty json_resp = none) :
    handle_request w req = ⟨200, "Failed to serialize response"⟩ :=
  hr_serialize_fail w req b data json_resp hm hp hct hb hparse hsend hser

/-- Witness for C2 at a concrete request with a failing serializer. -/
theorem serialize_failure_still_200_witness :
    handle_request noSerializeWorld demoReq = ⟨200, "Failed to serialize response"⟩ :=
  serialize_failure_still_200 noSerializeWorld demoReq demoBody demoJson
    demoJson rfl rfl rfl rfl rfl rfl rfl

/-- C3: for every request whose method is not POST or whose path is not
"/hello", the handler returns status 404 with the plain-text body
"Not Found"; the response is independent of the content-type header, the
body, and the entire external world (so no content-type check, body read,
parse, or upstream call can influence it). -/
theorem non_post_hello_yields_404 (w : World) (req : Request)
    (h : ¬ (req.method = "POST" ∧ req.path = "/hello")) :
    handle_request w req = ⟨404, "Not Found"⟩ ∧
    ∀ (w' : World) (ct : Option String) (br : Option (List Nat)),
      handle_request w' { req with contentType := ct, bodyRead := br } =
        handle_request w req := by
  refine ⟨hr_not_found w req h, fun w' ct br => ?_⟩
  rw [hr_not_found w req h]
  exact hr_not_found w' { req with contentType := ct, bodyRead := br } h

/-- Witness for C3 at a concrete GET request. -/
theorem non_post_hello_yields_404_witness :
    handle_request demoWorld getReq = ⟨404, "Not Found"⟩ :=
  (non_post_hello_yields_404 demoWorld getReq (by decide)).1

/-- C4: for every POST request to "/hello" whose Content-Type header is
absent or not byte-for-byte equal to "application/json", the handler
returns status 415, and the response is independent of the body and of the
entire external world (so the body is not read or parsed and no upstream
call is made). -/
theorem wrong_content_type_yields_415 (w : World) (req : Request)
    (hm : req.method = "POST") (hp : req.path = "/hello")
    (hct : req.contentType ≠ some "application/json") :
    handle_request w req = ⟨415, "Expected application/json"⟩ ∧
    ∀ (w' : World) (br : Option (List Nat)),
      handle_request w' { req with bodyRead := br } = handle_request w req := by
  refine ⟨hr_unsupported_media w req hm hp hct, fun w' br => ?_⟩
  rw [hr_unsupported_media w req hm hp hct,
      hr_unsupported_media w' { req with bodyRead := br } hm hp hct]

/-- Witness for C4 at a concrete request carrying a text content-type. -/
theorem wrong_content_type_yields_415_witness :
    handle_request demoWorld textCtReq = ⟨415, "Expected application/json"⟩ :=
  (wrong_content_type_yields_415 demoWorld textCtReq rfl rfl (by decide)).1

/-- C5: for every POST request to "/hello" with content-type exactly
"application/json" whose body bytes do not parse as JSON, the handler
returns status 400 with body exactly "Invalid JSON format", and the
response is independent of the upstream send function (no upstream call is
made). -/
theorem invalid_json_yields_400 (w : World) (req : Request) (b : List Nat)
    (hm : req.method = "POST") (hp : req.path = "/hello")
    (hct : req.contentType = some "application/json")
    (hb : req.bodyRead = some b)
    (hparse : w.parseJson b = none) :
    handle_request w req = ⟨400, "Invalid JSON format"⟩ ∧
    ∀ s' : Json → SendOutcome,
      handle_request { w with send := s' } req = handle_request w req := by
  refine ⟨hr_parse_fail w req b hm hp hct hb hparse, fun s' => ?_⟩
  rw [hr_parse_fail w req b hm hp hct hb hparse,
      hr_parse_fail { w with send := s' } req b hm hp hct hb hparse]

/-- Witness for C5 at a concrete request whose body fails to parse. -/
theorem invalid_json_yields_400_witness :
    handle_request badParseWorld demoReq = ⟨400, "Invalid JSON format"⟩ :=
  (invalid_json_yields_400 badParseWorld demoReq demoBody rfl rfl rfl rfl rfl).1

/-- C6: for every validated and parsed payload forwarded upstream, a
transport-level failure of the outbound POST yields status 502 with body
"API request failed: " followed by the underlying error text; a successful
POST whose response body does not decode as JSON yields status 502 with
body exactly "Failed to decode API response"; and every response with
status 502 arises from exactly one of these two cases. -/
theorem upstream_failure_yields_502 (w : World) (req : Request) :
    (∀ (b : List Nat) (data : Json) (e : String),
      req.method = "POST" → req.path = "/hello" →
      req.contentType = some "application/json" → req.bodyRead = some b →
      w.parseJson b = some data → w.send data = SendOutcome.transportErr e →
      handle_request w req = ⟨502, "API request failed: " ++ e⟩) ∧
    (∀ (b : List Nat) (data : Json),
      req.method = "POST" → req.path = "/hello" →
      req.contentType = some "application/json" → req.bodyRead = some b →
      w.parseJson b = some data → w.send data = SendOutcome.httpOk none →
      handle_request w req = ⟨502, "Failed to decode API response"⟩) ∧
    ((handle_request w req).status = 502 →
      ∃ b data, req.method = "POST" ∧ req.path = "/hello" ∧
        req.contentType = some "application/json" ∧ req.bodyRead = some b ∧
        w.parseJson b = some data ∧
        ((w.send data = SendOutcome.httpOk none ∧
          (handle_request w req).body = "Failed to decode API response") ∨
         ∃ e, w.send data = SendOutcome.transportErr e ∧
          (handle_request w req).body = "API request failed: " ++ e)) :=
  ⟨fun b data e hm hp hct hb hparse hsend =>
      hr_send_fail w req b data e hm hp hct hb hparse hsend,
   fun b data hm hp hct hb hparse hsend =>
      hr_decode_fail w req b data hm hp hct hb hparse hsend,
   hr_502_inv w req⟩

/-- Witness for C6 at a concrete request with a failing upstream. -/
theorem upstream_failure_yields_502_witness :
    handle_request sendErrWorld demoReq = ⟨502, "API request failed: boom"⟩ :=
  (upstream_failure_yields_502 sendErrWorld demoReq).1 demoBody demoJson
    "boom" rfl rfl rfl rfl rfl rfl

/-- C7: for every POST request to "/hello" with content-type exactly
"application/json" whose body cannot be fully read, the handler returns
status 400 with body exactly "Failed to read body", and the response is
independent of the upstream send function (no upstream call is made). -/
theorem body_read_failure_yields_400 (w : World) (req : Request)
    (hm : req.method = "POST") (hp : req.path = "/hello")
    (hct : req.contentType = some "application/json")
    (hb : req.bodyRead = none) :
    handle_request w req = ⟨400, "Failed to read body"⟩ ∧
    ∀ s' : Json → SendOutcome,
      handle_request { w with send := s' } req = handle_request w req := by
  refine ⟨hr_read_fail w req hm hp hct hb, fun s' => ?_⟩
  rw [hr_read_fail w req hm hp hct hb,
      hr_read_fail { w with send := s' } req hm hp hct hb]

/-- Witness for C7 at a concrete request whose body read fails. -/
theorem body_read_failure_yields_400_witness :
    handle_request demoWorld unreadableReq = ⟨400, "Failed to read body"⟩ :=
  (body_read_failure_yields_400 demoWorld unreadableReq rfl rfl rfl rfl).1

/-- C8: the handler is total (`handle_request` is a total function into a
single `Response`; the Rust original returns `Result<_, Infallible>` and is
always `Ok`), and for every world and request the response is one of the
fixed terminal states: 404 "Not Found", 415 "Expected application/json",
400 in two body variants, 502 in two body variants, or 200. -/
theorem handler_total_terminal_statuses (w : World) (req : Request) :
    ((handle_request w req).status = 404 ∧
      (handle_request w req).body = "Not Found") ∨
    ((handle_request w req).status = 415 ∧
      (handle_request w req).body = "Expected application/json") ∨
    ((handle_request w req).status = 400 ∧
      ((handle_request w req).body = "Failed to read body" ∨
       (handle_request w req).body = "Invalid JSON format")) ∨
    ((handle_request w req).status = 502 ∧
      ((handle_request w req).body = "Failed to decode API response" ∨
       ∃ e, (handle_request w req).body = "API request failed: " ++ e)) ∨
    (handle_request w req).status = 200 := by
  rcases hr_total_cases w req with
    hc | hc | hc | hc | ⟨b, data, hm, hp, hct, hb, hparse, hcase⟩ | hc
  · exact Or.inl ⟨by rw [hc], by rw [hc]⟩
  · exact Or.inr (Or.inl ⟨by rw [hc], by rw [hc]⟩)
  · exact Or.inr (Or.inr (Or.inl ⟨by rw [hc], Or.inl (by rw [hc])⟩))
  · exact Or.inr (Or.inr (Or.inl ⟨by rw [hc], Or.inr (by rw [hc])⟩))
  · rcases hcase with ⟨e, _, heq⟩ | ⟨_, heq⟩
    · exact Or.inr (Or.inr (Or.inr (Or.inl
        ⟨by rw [heq], Or.inr ⟨e, by rw [heq]⟩⟩)))
    · exact Or.inr (Or.inr (Or.inr (Or.inl ⟨by rw [heq], Or.inl (by rw [heq])⟩)))
  · exact Or.inr (Or.inr (Or.inr (Or.inr hc)))

/-- C9: the handler is stateless and deterministic modulo the upstream:
identical requests against an identical world produce identical responses,
handling a batch of n copies of one request produces n copies of one
response, and when the request is valid and the upstream succeeds every
one of those responses is the same 200 response. -/
theorem handler_stateless_deterministic
    (w : World) (req req2 : Request) (n : Nat) :
    (req = req2 → handle_request w req = handle_request w req2) ∧
    run_requests w (List.replicate n req) =
      List.replicate n (handle_request w req) ∧
    (∀ (b : List Nat) (data j : Json) (s : String),
      req.method = "POST" → req.path = "/hello" →
      req.contentType = some "application/json" → req.bodyRead = some b →
      w.parseJson b = some data → w.send data = SendOutcome.httpOk (some j) →
      w.toStringPretty j = some s →
      run_requests w (List.replicate n req) =
        List.replicate n (⟨200, s⟩ : Response)) := by
  refine ⟨fun h => by rw [h], by simp [run_requests], ?_⟩
  intro b data j s hm hp hct hb hparse hsend hser
  simp [run_requests, hr_success w req b data j s hm hp hct hb hparse hsend hser]

/-- Witness for C9: three repetitions of the demo request yield three
identical 200 responses. -/
theorem handler_stateless_deterministic_witness :
    run_requests demoWorld (List.replicate 3 demoReq) =
      List.replicate 3 (⟨200, "pretty"⟩ : Response) :=
  (handler_stateless_deterministic demoWorld demoReq demoReq 3).2.2 demoBody
    demoJson demoJson "pretty" rfl rfl rfl rfl rfl rfl rfl

/-- C10: for every request rejected by the Inbound Gate, the response is
independent of the upstream send function (no outbound request is issued),
and the rejecting texts are exactly "Not Found" for the 404 case and
"Expected application/json" for the 415 case. -/
theorem rejected_request_no_upstream_call (w : World) (req : Request)
    (h : gate_accepts w req = false) :
    (∀ s' : Json → SendOutcome,
      handle_request { w with send := s' } req = handle_request w req) ∧
    (¬ (req.method = "POST" ∧ req.path = "/hello") →
      handle_request w req = ⟨404, "Not Found"⟩) ∧
    (req.method = "POST" → req.path = "/hello" →
      req.contentType ≠ some "application/json" →
      handle_request w req = ⟨415, "Expected application/json"⟩) :=
  ⟨fun s' => hr_frame w req s' h, hr_not_found w req,
   fun hm hp hct => hr_unsupported_media w req hm hp hct⟩

/-- Witness for C10: a GET request is rejected by the gate, its response
ignores the upstream send function, and it is the 404 response. -/
theorem rejected_request_no_upstream_call_witness :
    handle_request { demoWorld with send := fun _ => SendOutcome.httpOk none }
        getReq = handle_request demoWorld getReq ∧
    handle_request demoWorld getReq = ⟨404, "Not Found"⟩ :=
  ⟨(rejected_request_no_upstream_call demoWorld getReq rfl).1
      (fun _ => SendOutcome.httpOk none),
   (rejected_request_no_upstream_call demoWorld getReq rfl).2.1 (by decide)⟩

end RustApiServer
